import Mathlib

/-!
Verification development for the Monado IPC server process
(`src/xrt/ipc/ipc_server_process.c`) and the compositor layer renderer
(`comp_layer_renderer.c`).  The C code is shallowly embedded: each C
function that the checked properties concern is translated into an
executable Lean definition over explicit state records, with external
syscalls and Vulkan calls represented by environment records and action
traces.  Machine integers appear as `Nat`/`Int`; the only wrap-relevant
constant is the `(uint32_t)-1` sentinel, kept as the literal
`4294967295`.
-/

namespace MonadoIpc

/-- Capacity of the server's device and tracking-origin arrays.
Modelled from the spec: `IPC_SERVER_NUM_XDEVS` is declared in
`ipc_server.h`, which is not among the provided sources; the spec fixes
the bound `N_DEV` to its default 8. -/
def IPC_SERVER_NUM_XDEVS : Nat := 8

/-- The value of `(uint32_t)-1`, used by `init_shm` as the
not-yet-resolved sentinel for `tracking_origin_index`. -/
def UINT32_MAX : Nat := 4294967295

/-- A `struct xrt_tracking_origin` object.  `addr` stands for the C
object's address: the server compares tracking origins by pointer
identity, which the embedding renders as equality of these records
(one C object = one Lean value). -/
structure XrtTrackingOrigin where
  addr : Nat
  name : Nat
  type : Nat
  offset : Nat
deriving DecidableEq

/-- Per-eye display parameters of `struct xrt_hmd_parts` (only the
fields `init_shm` copies: pixel sizes and fov). -/
structure XrtViewDisplay where
  w_pixels : Nat
  h_pixels : Nat
deriving DecidableEq

structure XrtView where
  display : XrtViewDisplay
  fov : Nat
deriving DecidableEq

/-- The HMD sub-record of a device; `init_shm` copies `views[0]` and
`views[1]`. -/
structure XrtHmd where
  view0 : XrtView
  view1 : XrtView
deriving DecidableEq

/-- A `struct xrt_device`.  The C `inputs`/`num_inputs` pointer+count
pair is one list (`num_inputs = inputs.length`); input and output
records are opaque payloads. -/
structure XrtDevice where
  name : Nat
  str : Nat
  tracking_origin : Option XrtTrackingOrigin
  hmd : Option XrtHmd
  inputs : List Nat
  outputs : List Nat
deriving DecidableEq

/-- A slot of `ipc_shared_memory.itracks`, as filled by the first
`init_shm` sweep (name, type and offset copied from the origin). -/
structure IpcSharedTrackingOrigin where
  name : Nat
  type : Nat
  offset : Nat
deriving DecidableEq

/-- A slot of `ipc_shared_memory.idevs`. -/
structure IpcSharedDevice where
  name : Nat
  str : Nat
  tracking_origin_index : Nat
  first_input_index : Nat
  num_inputs : Nat
  first_output_index : Nat
  num_outputs : Nat
deriving DecidableEq

/-- `ism->hmd`: the two published HMD views. -/
structure IpcSharedHmd where
  view0 : XrtView
  view1 : XrtView
deriving DecidableEq

def zeroView : XrtView := ⟨⟨0, 0⟩, 0⟩

/-- The populated `struct ipc_shared_memory` (the parts `init_shm`
writes; the flat `inputs`/`outputs` arrays are kept as the list of
entries actually written, so `inputs.length` is the final value of the
C cursor `input_index`). -/
structure IpcSharedMemory where
  itracks : List IpcSharedTrackingOrigin
  num_itracks : Nat
  idevs : List IpcSharedDevice
  num_idevs : Nat
  inputs : List Nat
  outputs : List Nat
  hmd : IpcSharedHmd
deriving DecidableEq

/-- The inner loop of `init_tracking_origins`: walk `s->xtracks` until
the first empty slot (insert there) or a slot already holding this
origin (stop).  Falling off the end leaves the table unchanged, exactly
as the C `for` loop running to `IPC_SERVER_NUM_XDEVS` does. -/
def insertTrackingOrigin (xtracks : List (Option XrtTrackingOrigin))
    (xtrack : XrtTrackingOrigin) : List (Option XrtTrackingOrigin) :=
  match xtracks with
  | [] => []
  | none :: rest => some xtrack :: rest
  | some t :: rest =>
    if t = xtrack then some t :: rest
    else some t :: insertTrackingOrigin rest xtrack

/-- The outer loop of `init_tracking_origins` over `s->xdevs`.  A NULL
device is skipped; a NULL tracking origin leaves the table unchanged
(in C it writes NULL over the first NULL slot, a no-op). -/
def initTrackingOriginsLoop :
    List (Option XrtDevice) → List (Option XrtTrackingOrigin) →
    List (Option XrtTrackingOrigin)
  | [], xtracks => xtracks
  | none :: rest, xtracks => initTrackingOriginsLoop rest xtracks
  | some xdev :: rest, xtracks =>
    match xdev.tracking_origin with
    | none => initTrackingOriginsLoop rest xtracks
    | some xtrack =>
      initTrackingOriginsLoop rest (insertTrackingOrigin xtracks xtrack)

/-- `init_tracking_origins`: dedupe the devices' tracking origins by
identity into the length-`IPC_SERVER_NUM_XDEVS` table `s->xtracks`
(initially all NULL from the server's calloc). -/
def init_tracking_origins (xdevs : List (Option XrtDevice)) :
    List (Option XrtTrackingOrigin) :=
  initTrackingOriginsLoop xdevs (List.replicate IPC_SERVER_NUM_XDEVS none)

/-- The `tracking_origin_index` search in `init_shm`: the C code first
stores `(uint32_t)-1` and then scans `s->xtracks` for the device's
origin pointer, keeping the first hit; no hit leaves the sentinel. -/
def findOriginIndexAux :
    List (Option XrtTrackingOrigin) → Option XrtTrackingOrigin → Nat → Nat
  | [], _, _ => UINT32_MAX
  | x :: rest, t, k => if x = t then k else findOriginIndexAux rest t (k + 1)

def findOriginIndex (xtracks : List (Option XrtTrackingOrigin))
    (t : Option XrtTrackingOrigin) : Nat :=
  findOriginIndexAux xtracks t 0

/-- The first `init_shm` sweep: copy each non-NULL `xtracks` slot into
`ism->itracks[count++]`. -/
def itracksOf (xtracks : List (Option XrtTrackingOrigin)) :
    List IpcSharedTrackingOrigin :=
  xtracks.filterMap fun o =>
    o.map fun t => ⟨t.name, t.type, t.offset⟩

/-- Mutable state of the second `init_shm` sweep: device entries written
so far, the flat input/output arrays (their lengths are the C cursors
`input_index`/`output_index`), and the published HMD views. -/
structure ShmFill where
  idevs : List IpcSharedDevice
  inputs : List Nat
  outputs : List Nat
  hmd : IpcSharedHmd
deriving DecidableEq

/-- The body of the second `init_shm` sweep for one non-NULL device:
copy name/str, publish HMD views if present, resolve
`tracking_origin_index`, append the device's inputs and outputs to the
flat arrays and record the index ranges.  The `else 0` arms reflect
that the freshly `ftruncate`d shared memory is zero-filled and the C
code only assigns the range fields when `input_start != input_index`
(resp. outputs). -/
def writeSharedDevice (xtracks : List (Option XrtTrackingOrigin))
    (st : ShmFill) (xdev : XrtDevice) : ShmFill :=
  let hmd : IpcSharedHmd :=
    match xdev.hmd with
    | some h => ⟨h.view0, h.view1⟩
    | none => st.hmd
  let input_start := st.inputs.length
  let inputs := st.inputs ++ xdev.inputs
  let output_start := st.outputs.length
  let outputs := st.outputs ++ xdev.outputs
  let idev : IpcSharedDevice :=
    { name := xdev.name
      str := xdev.str
      tracking_origin_index := findOriginIndex xtracks xdev.tracking_origin
      first_input_index :=
        if input_start ≠ inputs.length then input_start else 0
      num_inputs :=
        if input_start ≠ inputs.length then inputs.length - input_start else 0
      first_output_index :=
        if output_start ≠ outputs.length then output_start else 0
      num_outputs :=
        if output_start ≠ outputs.length then outputs.length - output_start
        else 0 }
  { idevs := st.idevs ++ [idev]
    inputs := inputs
    outputs := outputs
    hmd := hmd }

/-- The second `init_shm` sweep over `s->xdevs` (NULL devices are
skipped, `count` advances once per written entry). -/
def initShmDevicesLoop (xtracks : List (Option XrtTrackingOrigin)) :
    List (Option XrtDevice) → ShmFill → ShmFill
  | [], st => st
  | none :: rest, st => initShmDevicesLoop xtracks rest st
  | some xdev :: rest, st =>
    initShmDevicesLoop xtracks rest (writeSharedDevice xtracks st xdev)

/-- The population phase of `init_shm` (after the successful
`shm_open`/`ftruncate`/`mmap`): both sweeps, the two counters and the
flat arrays.  The mapping starts zero-filled, whence the zeroed initial
`ShmFill`. -/
def init_shm_populate (xdevs : List (Option XrtDevice))
    (xtracks : List (Option XrtTrackingOrigin)) : IpcSharedMemory :=
  let its := itracksOf xtracks
  let fill := initShmDevicesLoop xtracks xdevs ⟨[], [], [], ⟨zeroView, zeroView⟩⟩
  { itracks := its
    num_itracks := its.length
    idevs := fill.idevs
    num_idevs := fill.idevs.length
    inputs := fill.inputs
    outputs := fill.outputs
    hmd := fill.hmd }

/-- A device slot either is NULL or carries a non-NULL tracking origin
(the hypothesis of the catalogue invariant; `init_tracking_origins`
asserts it). -/
def devHasOrigin : Option XrtDevice → Prop
  | none => True
  | some d => d.tracking_origin ≠ none

instance (od : Option XrtDevice) : Decidable (devHasOrigin od) :=
  match od with
  | none => isTrue trivial
  | some d => inferInstanceAs (Decidable (d.tracking_origin ≠ none))

/-- Membership of flat-array index `x` in device `d`'s published input
slice `[first_input_index, first_input_index + num_inputs)`. -/
def inInputRange (d : IpcSharedDevice) (x : Nat) : Prop :=
  d.first_input_index ≤ x ∧ x < d.first_input_index + d.num_inputs

def inOutputRange (d : IpcSharedDevice) (x : Nat) : Prop :=
  d.first_output_index ≤ x ∧ x < d.first_output_index + d.num_outputs

/-- Two published device entries address disjoint input slices and
disjoint output slices of the flat arrays. -/
def slicesDisjoint (d1 d2 : IpcSharedDevice) : Prop :=
  (∀ x, ¬(inInputRange d1 x ∧ inInputRange d2 x)) ∧
  (∀ x, ¬(inOutputRange d1 x ∧ inOutputRange d2 x))

/-! The failure paths of `init_shm` and the `init_all` sequencing.
External syscalls are an environment record fixing each call's result
for the run. -/

/-- Results of the external calls `init_shm` makes: the fd returned by
`shm_open` (negative = failure), the `ftruncate` return value, and
whether `mmap` fails.  POSIX `mmap` reports failure by returning
`MAP_FAILED` (`(void *)-1`), never NULL. -/
structure ShmEnv where
  shm_open_fd : Int
  ftruncate_ret : Int
  mmap_fails : Bool
deriving DecidableEq

/-- The pointer value stored in `s->ism`: NULL (unset, the server's
calloc), a valid mapping carrying the populated region, or the
`MAP_FAILED` sentinel — a non-NULL invalid pointer, so the code's
`s->ism == NULL` test does not distinguish it from a mapping. -/
inductive IsmPointer where
  | nullPtr
  | mapped (ism : IpcSharedMemory)
  | mapFailedPtr
deriving DecidableEq

/-- Outcome of `init_shm`: the C return value, the stored `s->ism`
pointer, the saved `s->ism_fd`, the fds passed to `close`, and whether
`shm_unlink("/monado_shm")` ran. -/
structure ShmOutcome where
  ret : Int
  ism : IsmPointer
  ism_fd : Option Int
  closed_fds : List Int
  shm_unlinked : Bool
deriving DecidableEq

/-- `init_shm`: open and size the shared object, bailing out with -1 on
each failure, then store what `mmap` returns into `s->ism` and test it
against NULL.  Because a failed `mmap` returns `MAP_FAILED` and not
NULL, that test never fires: on `mmap` failure the code falls through
exactly as on success — it unlinks the name, saves the fd and returns
0, with every catalogue write aimed through the invalid pointer
(undefined behavior in C, so the populated region exists only in the
`mapped` case). -/
def init_shm (env : ShmEnv) (xdevs : List (Option XrtDevice))
    (xtracks : List (Option XrtTrackingOrigin)) : ShmOutcome :=
  if env.shm_open_fd < 0 then
    ⟨-1, .nullPtr, none, [], false⟩
  else if env.ftruncate_ret < 0 then
    ⟨-1, .nullPtr, none, [env.shm_open_fd], false⟩
  else
    let ism : IsmPointer :=
      if env.mmap_fails then .mapFailedPtr
      else .mapped (init_shm_populate xdevs xtracks)
    if ism = IsmPointer.nullPtr then
      ⟨-1, ism, none, [env.shm_open_fd], false⟩
    else
      ⟨0, ism, some env.shm_open_fd, [], true⟩

/-- Results of the external calls `init_all` makes before and after
`init_shm` (`init_tracking_origins` itself always returns 0 and is run
in place). -/
structure InitEnv where
  xrt_instance_create_ret : Int
  xrt_instance_select_ret : Int
  xdevs : List (Option XrtDevice)
  fd_compositor_ret : Int
  shm : ShmEnv
  listen_ret : Int
  epoll_ret : Int
  wait_alloc_ret : Int
deriving DecidableEq

/-- Outcome of `init_all`: its return value, whether `teardown_all` ran
on the way out, and the `s->ism` pointer as left behind. -/
structure InitOutcome where
  ret : Int
  teardown_ran : Bool
  ism : IsmPointer
deriving DecidableEq

/-- `init_all`: the init sequence of the server; every failing step
calls `teardown_all` and returns the step's error. -/
def init_all (env : InitEnv) : InitOutcome :=
  if env.xrt_instance_create_ret < 0 then
    ⟨env.xrt_instance_create_ret, true, .nullPtr⟩
  else if env.xrt_instance_select_ret < 0 then
    ⟨env.xrt_instance_select_ret, true, .nullPtr⟩
  else if env.xdevs.headD none = none then
    ⟨-1, true, .nullPtr⟩
  else if env.fd_compositor_ret < 0 then
    ⟨env.fd_compositor_ret, true, .nullPtr⟩
  else if (init_shm env.shm env.xdevs (init_tracking_origins env.xdevs)).ret < 0
  then
    ⟨(init_shm env.shm env.xdevs (init_tracking_origins env.xdevs)).ret, true,
      (init_shm env.shm env.xdevs (init_tracking_origins env.xdevs)).ism⟩
  else if env.listen_ret < 0 then
    ⟨env.listen_ret, true,
      (init_shm env.shm env.xdevs (init_tracking_origins env.xdevs)).ism⟩
  else if env.epoll_ret < 0 then
    ⟨env.epoll_ret, true,
      (init_shm env.shm env.xdevs (init_tracking_origins env.xdevs)).ism⟩
  else if env.wait_alloc_ret < 0 then
    ⟨env.wait_alloc_ret, true,
      (init_shm env.shm env.xdevs (init_tracking_origins env.xdevs)).ism⟩
  else
    ⟨0, false,
      (init_shm env.shm env.xdevs (init_tracking_origins env.xdevs)).ism⟩

/-! The listening socket: `get_systemd_socket`, `create_listen_socket`,
`init_listen_socket` and the socket part of `teardown_all`. -/

/-- The listener fields of `struct ipc_server`; the path saved in
`socket_filename` is an opaque token (`strdup(IPC_MSG_SOCK_FILE)`). -/
structure ListenState where
  listen_socket : Int
  launched_by_socket : Bool
  socket_filename : Option Nat
deriving DecidableEq

/-- The well-known socket path, as an opaque token. -/
def IPC_MSG_SOCK_FILE : Nat := 0

/-- First inherited-fd number of the socket-activation convention.
Modelled from the spec: `SD_LISTEN_FDS_START` comes from the systemd
headers, not from a repository source; the supervisor-handoff
convention passes fds starting right after stderr. -/
def SD_LISTEN_FDS_START : Int := 3

/-- Results of the external calls of the listener bootstrap:
`sd_listen_fds`, `socket`, `bind` and `listen`. -/
structure ListenEnv where
  sd_num_fds : Nat
  socket_ret : Int
  bind_ret : Int
  listen_ret : Int
deriving DecidableEq

/-- A bootstrap step's C return value, the fd it produced (-1 for
none), and the listener state it leaves. -/
structure SockStep where
  ret : Int
  fd : Int
  st : ListenState
deriving DecidableEq

/-- `get_systemd_socket`: more than one inherited fd is fatal; exactly
one makes it the listener and sets `launched_by_socket`. -/
def get_systemd_socket (env : ListenEnv) (s : ListenState) : SockStep :=
  if env.sd_num_fds > 1 then ⟨-1, -1, s⟩
  else if env.sd_num_fds = 1 then
    ⟨0, SD_LISTEN_FDS_START, ⟨s.listen_socket, true, s.socket_filename⟩⟩
  else ⟨0, -1, s⟩

/-- `create_listen_socket`: socket, bind (saving the path with `strdup`
only after a successful bind), listen.  Failures close the fd and
return the error. -/
def create_listen_socket (env : ListenEnv) (s : ListenState) : SockStep :=
  if env.socket_ret < 0 then ⟨env.socket_ret, -1, s⟩
  else if env.bind_ret < 0 then ⟨env.bind_ret, -1, s⟩
  else
    let s1 : ListenState :=
      ⟨s.listen_socket, s.launched_by_socket, some IPC_MSG_SOCK_FILE⟩
    if env.listen_ret < 0 then ⟨env.listen_ret, -1, s1⟩
    else ⟨0, env.socket_ret, s1⟩

/-- `init_listen_socket`: reset `listen_socket` to -1, try the
supervisor handoff, otherwise create the socket; on success store the
fd and return it. -/
def init_listen_socket (env : ListenEnv) (s : ListenState) : SockStep :=
  let s0 : ListenState := ⟨-1, s.launched_by_socket, s.socket_filename⟩
  let g := get_systemd_socket env s0
  if g.ret < 0 then ⟨g.ret, g.fd, g.st⟩
  else if g.fd = -1 then
    let c := create_listen_socket env g.st
    if c.ret < 0 then ⟨c.ret, c.fd, c.st⟩
    else ⟨c.fd, c.fd, ⟨c.fd, c.st.launched_by_socket, c.st.socket_filename⟩⟩
  else ⟨g.fd, g.fd, ⟨g.fd, g.st.launched_by_socket, g.st.socket_filename⟩⟩

/-- Result of the socket branch of `teardown_all`: the state left
behind, the fds closed, and the paths unlinked. -/
structure TeardownSocketOutcome where
  st : ListenState
  closed : List Int
  unlinked : List Nat
deriving DecidableEq

/-- The socket branch of `teardown_all`: with a valid fd, close it;
then unlink (and free) the saved path, but only if this process bound
it (`!launched_by_socket && socket_filename`). -/
def teardown_listen_socket (s : ListenState) : TeardownSocketOutcome :=
  if s.listen_socket > 0 then
    if ¬s.launched_by_socket then
      match s.socket_filename with
      | some f => ⟨⟨-1, s.launched_by_socket, none⟩, [s.listen_socket], [f]⟩
      | none => ⟨⟨-1, s.launched_by_socket, none⟩, [s.listen_socket], []⟩
    else ⟨⟨-1, s.launched_by_socket, s.socket_filename⟩, [s.listen_socket], []⟩
  else ⟨s, [], []⟩

/-! `handle_listen`: accepting a connection on the listening socket. -/

/-- The fields of `struct ipc_server`/`ipc_client_state` that
`handle_listen` touches. -/
structure ServerThreadState where
  running : Bool
  thread_started : Bool
  thread_stopping : Bool
  ipc_socket_fd : Int
deriving DecidableEq

/-- The observable actions of `handle_listen`. -/
inductive ListenAction where
  | logAcceptError
  | logClientAlreadyConnected
  | closeFd (fd : Int)
  | threadJoin
  | threadDestroy
  | threadStart
deriving DecidableEq

structure HandleListenOutcome where
  st : ServerThreadState
  actions : List ListenAction
deriving DecidableEq

/-- `handle_listen`: a failed `accept` logs and clears `running` but
does not return; the return value becomes the fd.  With a started,
non-stopping worker the fd is closed and the state kept; otherwise a
stopping worker is joined first, then the fd is stored and a worker
started. -/
def handle_listen (acceptRet : Int) (s : ServerThreadState) :
    HandleListenOutcome :=
  let running := if acceptRet < 0 then false else s.running
  let logs : List ListenAction :=
    if acceptRet < 0 then [.logAcceptError] else []
  let fd := acceptRet
  if s.thread_started && !s.thread_stopping then
    ⟨⟨running, s.thread_started, s.thread_stopping, s.ipc_socket_fd⟩,
      logs ++ [.logClientAlreadyConnected, .closeFd fd]⟩
  else
    let joinActs : List ListenAction :=
      if s.thread_stopping then [.threadJoin, .threadDestroy] else []
    let stopping := if s.thread_stopping then false else s.thread_stopping
    ⟨⟨running, true, stopping, fd⟩, logs ++ joinActs ++ [.threadStart]⟩

/-! Layer reconciliation and the render portion of `main_loop`. -/

/-- The `xrt_layer_type` tags (the reconciliation switch handles the
first two; the rest fall through it). -/
inductive XrtLayerType where
  | stereoProjection
  | quad
  | cube
  | cylinder
  | equirect1
  | equirect2
deriving DecidableEq

/-- One eye of a stereo-projection layer payload (the `sub` fields the
code reads; sub-rects are ignored by the source). -/
structure IpcLayerStereoEye where
  image_index : Nat
  array_index : Nat
deriving DecidableEq

structure IpcLayerStereo where
  l : IpcLayerStereoEye
  r : IpcLayerStereoEye
deriving DecidableEq

structure IpcLayerQuadData where
  pose : Nat
  size : Nat
  image_index : Nat
  array_index : Nat
deriving DecidableEq

/-- The per-layer payload (`layer->data`); the C union carries one
variant, embedded here as both fields with the `type` tag selecting. -/
structure IpcLayerData where
  type : XrtLayerType
  flip_y : Bool
  stereo : IpcLayerStereo
  quad : IpcLayerQuadData
deriving DecidableEq

structure IpcLayerRenderState where
  swapchain_ids : List Nat
  data : IpcLayerData
deriving DecidableEq

/-- `ipc_render_state`: the single-slot handoff the worker fills. -/
structure IpcRenderState where
  rendering : Bool
  num_layers : Nat
  layers : List IpcLayerRenderState
deriving DecidableEq

/-- The `ipc_client_state` fields the render side reads; `xscs` is the
session's swapchain array, a slot per client-assigned id (a `Nat`
handle stands for a non-NULL `xrt_swapchain` pointer). -/
structure IpcClientState where
  active : Bool
  num_swapchains : Nat
  xscs : List (Option Nat)
  render_state : IpcRenderState
deriving DecidableEq

/-- The observable compositor calls of one `main_loop` iteration. -/
inductive CompAction where
  | destroyLayers
  | allocateLayers (n : Nat)
  | setProjectionLayer (lsc lImg rsc rImg : Nat) (flip : Bool)
      (i lArr rArr : Nat)
  | setQuadLayer (sc img pose size : Nat) (flip : Bool) (i arr : Nat)
  | logInvalidProjectionSwapchain
  | logInvalidQuadSwapchain
  | logDestroyingLayers
  | draw
  | garbageCollect
deriving DecidableEq

/-- `_update_projection_layer`: look both referenced swapchains up in
the session; a NULL slot (either side) logs once and fails the frame,
otherwise the images are handed to the renderer. -/
def updateProjectionLayer (ac : IpcClientState)
    (layer : IpcLayerRenderState) (i : Nat) : Bool × List CompAction :=
  let lsi := layer.swapchain_ids.getD 0 0
  let rsi := layer.swapchain_ids.getD 1 0
  match ac.xscs.getD lsi none, ac.xscs.getD rsi none with
  | some cl, some cr =>
    (true, [.setProjectionLayer cl layer.data.stereo.l.image_index
      cr layer.data.stereo.r.image_index layer.data.flip_y i
      layer.data.stereo.l.array_index layer.data.stereo.r.array_index])
  | some _, none => (false, [.logInvalidProjectionSwapchain])
  | none, _ => (false, [.logInvalidProjectionSwapchain])

/-- `_update_quad_layer`: single swapchain lookup, same failure
policy. -/
def updateQuadLayer (ac : IpcClientState) (layer : IpcLayerRenderState)
    (i : Nat) : Bool × List CompAction :=
  let sci := layer.swapchain_ids.getD 0 0
  match ac.xscs.getD sci none with
  | some sc =>
    (true, [.setQuadLayer sc layer.data.quad.image_index
      layer.data.quad.pose layer.data.quad.size layer.data.flip_y i
      layer.data.quad.array_index])
  | none => (false, [.logInvalidQuadSwapchain])

/-- The per-layer dispatch loop of `_update_layers`: stop at the first
failing layer; tags outside the switch fall through. -/
def updateLayersLoop (ac : IpcClientState) :
    List IpcLayerRenderState → Nat → Bool × List CompAction
  | [], _ => (true, [])
  | layer :: rest, i =>
    match layer.data.type with
    | .stereoProjection =>
      let r := updateProjectionLayer ac layer i
      if r.1 then
        let r2 := updateLayersLoop ac rest (i + 1)
        (r2.1, r.2 ++ r2.2)
      else (false, r.2)
    | .quad =>
      let r := updateQuadLayer ac layer i
      if r.1 then
        let r2 := updateLayersLoop ac rest (i + 1)
        (r2.1, r.2 ++ r2.2)
      else (false, r.2)
    | _ => updateLayersLoop ac rest (i + 1)

/-- Outcome of `_update_layers`: the success flag, the compositor-side
layer count (`*num_layers`), and the compositor calls made. -/
structure UpdateLayersOutcome where
  ok : Bool
  num_layers : Nat
  actions : List CompAction
deriving DecidableEq

/-- `_update_layers`: when the incoming count differs from the
compositor's, destroy all layer objects and allocate a fresh array
sized to the new count, then dispatch each submitted layer. -/
def update_layers (num_layers : Nat) (ac : IpcClientState) :
    UpdateLayersOutcome :=
  let rs := ac.render_state
  let pre : List CompAction :=
    if num_layers ≠ rs.num_layers then
      [.destroyLayers, .allocateLayers rs.num_layers]
    else []
  let nl := if num_layers ≠ rs.num_layers then rs.num_layers else num_layers
  let r := updateLayersLoop ac (rs.layers.take rs.num_layers) 0
  ⟨r.1, nl, pre ++ r.2⟩

/-- Result of the render portion of one `main_loop` iteration:
`render_state.rendering` afterwards, the compositor-side layer count,
the compositor calls, and whether the iteration took the `continue`
(skipping draw and garbage collection). -/
structure LoopIterOutcome where
  rendering : Bool
  num_layers : Nat
  actions : List CompAction
  continued : Bool
deriving DecidableEq

/-- The render portion of one `main_loop` iteration (after
`check_epoll`): with no usable active client, drop stale layers and
draw; with a rendering client, reconcile, clear `rendering` on success
or `continue` on failure; always draw and garbage-collect unless the
iteration continued. -/
def main_loop_body (num_layers : Nat) (ts : IpcClientState) :
    LoopIterOutcome :=
  if !ts.active || ts.num_swapchains == 0 then
    if num_layers ≠ 0 then
      ⟨ts.render_state.rendering, 0,
        [.logDestroyingLayers, .destroyLayers, .draw, .garbageCollect], false⟩
    else
      ⟨ts.render_state.rendering, num_layers, [.draw, .garbageCollect], false⟩
  else if ts.render_state.rendering then
    let r := update_layers num_layers ts
    if !r.ok then ⟨ts.render_state.rendering, r.num_layers, r.actions, true⟩
    else ⟨false, r.num_layers, r.actions ++ [.draw, .garbageCollect], false⟩
  else ⟨ts.render_state.rendering, num_layers, [.draw, .garbageCollect], false⟩

/-- A submitted layer references a swapchain id whose slot in the
session's array is NULL (for the tags the dispatch switch handles). -/
def layerRefsNullSwapchain (ac : IpcClientState)
    (layer : IpcLayerRenderState) : Bool :=
  match layer.data.type with
  | .stereoProjection =>
    (ac.xscs.getD (layer.swapchain_ids.getD 0 0) none).isNone ||
      (ac.xscs.getD (layer.swapchain_ids.getD 1 0) none).isNone
  | .quad => (ac.xscs.getD (layer.swapchain_ids.getD 0 0) none).isNone
  | _ => false

/-- The error-log actions of the layer dispatch. -/
def isErrLog : CompAction → Bool
  | .logInvalidProjectionSwapchain => true
  | .logInvalidQuadSwapchain => true
  | _ => false

/-- The actions the per-layer dispatch loop can emit (no draws, no
layer-array management). -/
def isLoopAction : CompAction → Bool
  | .setProjectionLayer _ _ _ _ _ _ _ _ => true
  | .setQuadLayer _ _ _ _ _ _ _ => true
  | .logInvalidProjectionSwapchain => true
  | .logInvalidQuadSwapchain => true
  | _ => false

/-! The compositor layer renderer (`comp_layer_renderer.c`). -/

/-- `VkClearColorValue.float32`: the four components, with the C float
literals embedded as the rationals they denote in the source text. -/
structure VkClearColorValue where
  c0 : ℚ
  c1 : ℚ
  c2 : ℚ
  c3 : ℚ
deriving DecidableEq

def background_color_idle : VkClearColorValue := ⟨1/10, 1/10, 1/10, 1⟩

def background_color_active : VkClearColorValue := ⟨0, 0, 0, 1⟩

/-- The layer-renderer fields the checked claims concern: the current
layer count and the layer-object array (opaque handles). -/
structure CompLayerRenderer where
  layer_count : Nat
  layers : List Nat
deriving DecidableEq

/-- `comp_layer_renderer_allocate_layers`: set the count and allocate a
fresh contiguous array of that many newly created layer objects. -/
def comp_layer_renderer_allocate_layers (_self : CompLayerRenderer)
    (layer_count : Nat) : CompLayerRenderer :=
  ⟨layer_count, List.replicate layer_count 0⟩

/-- `comp_layer_renderer_destroy_layers`: destroy every layer object,
free the array and zero the count. -/
def comp_layer_renderer_destroy_layers (_self : CompLayerRenderer) :
    CompLayerRenderer :=
  ⟨0, []⟩

/-- The Vulkan-visible actions of `comp_layer_renderer_draw`. -/
inductive DrawAction where
  | renderPassBegin (clear : VkClearColorValue)
  | renderEye (eye : Nat)
  | endRenderPass
deriving DecidableEq

/-- `_render_stereo`: per eye, begin the render pass with the given
clear color, render the layer stack for that eye, end the pass. -/
def render_stereo (color : VkClearColorValue) : List DrawAction :=
  [.renderPassBegin color, .renderEye 0, .endRenderPass,
   .renderPassBegin color, .renderEye 1, .endRenderPass]

/-- `comp_layer_renderer_draw`: clear to the idle background color when
no layers are present, to the active background color otherwise. -/
def comp_layer_renderer_draw (self : CompLayerRenderer) : List DrawAction :=
  if self.layer_count = 0 then render_stereo background_color_idle
  else render_stereo background_color_active

/-! Concrete fixtures used by the witnesses. -/

def wOrigin1 : XrtTrackingOrigin := ⟨100, 1, 2, 3⟩
def wOrigin2 : XrtTrackingOrigin := ⟨200, 4, 5, 6⟩
def wDevA : XrtDevice :=
  ⟨1, 11, some wOrigin1, some ⟨⟨⟨1280, 720⟩, 7⟩, ⟨⟨1280, 720⟩, 8⟩⟩, [3, 4], [9]⟩
def wDevB : XrtDevice := ⟨2, 12, some wOrigin2, none, [], [5, 6]⟩
def wDevC : XrtDevice := ⟨3, 13, some wOrigin1, none, [7], []⟩
def wXdevs : List (Option XrtDevice) := [some wDevA, none, some wDevB, some wDevC]

/-- A run in which `shm_open` returns fd 3, `ftruncate` succeeds and
`mmap` fails (returning `MAP_FAILED`). -/
def wShmEnvMmapFail : ShmEnv := ⟨3, 0, true⟩

/-- An `init_all` environment whose only failing external call is
`mmap`. -/
def wInitEnvMmapFail : InitEnv := ⟨0, 0, wXdevs, 0, wShmEnvMmapFail, 0, 0, 0⟩

/-- A listener environment with no supervisor handoff and successful
socket calls (the created fd is 7). -/
def wListenEnvCreated : ListenEnv := ⟨0, 7, 0, 0⟩

/-- The calloc'd initial listener state. -/
def wListenStateZero : ListenState := ⟨0, false, none⟩

/-- A session whose worker thread is started and not stopping. -/
def wThreadBusy : ServerThreadState := ⟨true, true, false, 9⟩

/-- A stereo layer referencing swapchain ids 0 and 1. -/
def wLayerStereo01 : IpcLayerRenderState :=
  ⟨[0, 1], ⟨.stereoProjection, false, ⟨⟨0, 0⟩, ⟨0, 0⟩⟩, ⟨0, 0, 0, 0⟩⟩⟩

/-- An active client with one swapchain slot filled and the second slot
NULL, rendering one stereo layer that references the NULL slot. -/
def wClientBadSwapchain : IpcClientState :=
  ⟨true, 2, [some 42, none], ⟨true, 1, [wLayerStereo01]⟩⟩

/-! Lemmas about the tracking-origin table.  The table built by
`init_tracking_origins` is always *dense*: a block of occupied slots
followed by NULLs, written `q.map some ++ List.replicate m none`. -/

theorem insertTrackingOrigin_mem_eq (p : List XrtTrackingOrigin) (k : Nat)
    (t : XrtTrackingOrigin) (h : t ∈ p) :
    insertTrackingOrigin (p.map some ++ List.replicate k none) t =
      p.map some ++ List.replicate k none := by
  induction p with
  | nil => cases h
  | cons a p ih =>
    by_cases ha : a = t
    · subst ha; simp [insertTrackingOrigin]
    · have ht : t ∈ p := by
        rcases List.mem_cons.mp h with h1 | h2
        · exact absurd h1.symm ha
        · exact h2
      simp [insertTrackingOrigin, ha, ih ht]

theorem insertTrackingOrigin_new_eq (p : List XrtTrackingOrigin) (k : Nat)
    (t : XrtTrackingOrigin) (h : t ∉ p) :
    insertTrackingOrigin (p.map some ++ List.replicate (k + 1) none) t =
      (p ++ [t]).map some ++ List.replicate k none := by
  induction p with
  | nil => simp [List.replicate_succ, insertTrackingOrigin]
  | cons a p ih =>
    have ha : ¬ a = t := fun e => h (e ▸ List.mem_cons_self a p)
    have ht : t ∉ p := fun hm => h (List.mem_cons_of_mem a hm)
    simp [insertTrackingOrigin, ha, ih ht]

theorem initTrackingOriginsLoop_shape (xdevs : List (Option XrtDevice)) :
    ∀ (p : List XrtTrackingOrigin) (k : Nat), xdevs.length ≤ k →
    ∃ q m,
      initTrackingOriginsLoop xdevs (p.map some ++ List.replicate k none) =
        (p ++ q).map some ++ List.replicate m none ∧
      (p ++ q).length + m = p.length + k ∧
      ∀ d : XrtDevice, some d ∈ xdevs → ∀ t,
        d.tracking_origin = some t → t ∈ p ++ q := by
  induction xdevs with
  | nil =>
    intro p k _
    exact ⟨[], k, by simp [initTrackingOriginsLoop], by simp,
      by intro d hd; cases hd⟩
  | cons od rest ih =>
    intro p k hk
    have hrest : rest.length ≤ k := by
      simp only [List.length_cons] at hk; omega
    cases od with
    | none =>
      obtain ⟨q, m, h1, h2, h3⟩ := ih p k hrest
      refine ⟨q, m, by simpa [initTrackingOriginsLoop] using h1, h2, ?_⟩
      intro d hd t hdt
      rcases List.mem_cons.mp hd with h4 | h4
      · cases h4
      · exact h3 d h4 t hdt
    | some xdev =>
      cases h0 : xdev.tracking_origin with
      | none =>
        obtain ⟨q, m, h1, h2, h3⟩ := ih p k hrest
        refine ⟨q, m, by simpa [initTrackingOriginsLoop, h0] using h1, h2, ?_⟩
        intro d hd t hdt
        rcases List.mem_cons.mp hd with h4 | h4
        · cases Option.some.inj h4; rw [hdt] at h0; cases h0
        · exact h3 d h4 t hdt
      | some t0 =>
        by_cases htp : t0 ∈ p
        · obtain ⟨q, m, h1, h2, h3⟩ := ih p k hrest
          refine ⟨q, m, ?_, h2, ?_⟩
          · simpa [initTrackingOriginsLoop, h0,
              insertTrackingOrigin_mem_eq p k t0 htp] using h1
          · intro d hd t hdt
            rcases List.mem_cons.mp hd with h4 | h4
            · cases Option.some.inj h4
              rw [hdt] at h0; cases Option.some.inj h0
              exact List.mem_append.mpr (Or.inl htp)
            · exact h3 d h4 t hdt
        · cases k with
          | zero => simp at hk
          | succ k1 =>
            have hrest1 : rest.length ≤ k1 := by
              simp only [List.length_cons] at hk; omega
            obtain ⟨q, m, h1, h2, h3⟩ := ih (p ++ [t0]) k1 hrest1
            refine ⟨t0 :: q, m, ?_, ?_, ?_⟩
            · have he := insertTrackingOrigin_new_eq p k1 t0 htp
              have : initTrackingOriginsLoop (some xdev :: rest)
                  (p.map some ++ List.replicate (k1 + 1) none) =
                  initTrackingOriginsLoop rest
                    ((p ++ [t0]).map some ++ List.replicate k1 none) := by
                simp [initTrackingOriginsLoop, h0, he]
              rw [this, h1, List.append_assoc]
              rfl
            · simp only [List.length_append, List.length_cons,
                List.length_singleton] at h2 ⊢
              omega
            · intro d hd t hdt
              rcases List.mem_cons.mp hd with h4 | h4
              · cases Option.some.inj h4
                rw [hdt] at h0; cases Option.some.inj h0
                exact List.mem_append.mpr (Or.inr (List.mem_cons_self _ _))
              · have := h3 d h4 t hdt
                rwa [List.append_assoc] at this

theorem init_tracking_origins_shape (xdevs : List (Option XrtDevice))
    (hlen : xdevs.length ≤ IPC_SERVER_NUM_XDEVS) :
    ∃ (q : List XrtTrackingOrigin) (m : Nat),
      init_tracking_origins xdevs = q.map some ++ List.replicate m none ∧
      q.length + m = IPC_SERVER_NUM_XDEVS ∧
      ∀ d : XrtDevice, some d ∈ xdevs → ∀ t,
        d.tracking_origin = some t → t ∈ q := by
  obtain ⟨q, m, h1, h2, h3⟩ :=
    initTrackingOriginsLoop_shape xdevs [] IPC_SERVER_NUM_XDEVS hlen
  refine ⟨q, m, ?_, ?_, ?_⟩
  · simpa [init_tracking_origins] using h1
  · simpa using h2
  · simpa using h3

theorem itracksOf_replicate_none (m : Nat) :
    itracksOf (List.replicate m none) = [] := by
  induction m with
  | zero => rfl
  | succ m ih => simp [itracksOf, List.replicate_succ, List.filterMap_cons]

theorem itracksOf_shape (q : List XrtTrackingOrigin) (m : Nat) :
    itracksOf (q.map some ++ List.replicate m none) =
      q.map fun t => (⟨t.name, t.type, t.offset⟩ : IpcSharedTrackingOrigin) := by
  induction q with
  | nil => simpa using itracksOf_replicate_none m
  | cons a q ih => simp [itracksOf, List.filterMap_cons]

theorem findOriginIndexAux_lt_of_mem (q : List XrtTrackingOrigin) (m : Nat)
    (t : XrtTrackingOrigin) (h : t ∈ q) :
    ∀ k0, findOriginIndexAux (q.map some ++ List.replicate m none) (some t) k0 <
      k0 + q.length := by
  induction q with
  | nil => cases h
  | cons a q ih =>
    intro k0
    by_cases ha : a = t
    · subst ha
      have hz : findOriginIndexAux ((a :: q).map some ++ List.replicate m none)
          (some a) k0 = k0 := by
        simp [findOriginIndexAux]
      rw [hz]
      simp only [List.length_cons]
      omega
    · have ht : t ∈ q := by
        rcases List.mem_cons.mp h with h1 | h2
        · exact absurd h1.symm ha
        · exact h2
      have hrec := ih ht (k0 + 1)
      have hne : (some a : Option XrtTrackingOrigin) ≠ some t := by
        simpa using ha
      have hstep : findOriginIndexAux ((a :: q).map some ++ List.replicate m none)
          (some t) k0 =
          findOriginIndexAux (q.map some ++ List.replicate m none) (some t)
            (k0 + 1) := by
        simp [findOriginIndexAux, hne]
      rw [hstep]
      simp only [List.length_cons]
      omega

theorem initShmDevicesLoop_origin (xtracks : List (Option XrtTrackingOrigin))
    (xdevs : List (Option XrtDevice)) :
    ∀ st : ShmFill, ∀ idev ∈ (initShmDevicesLoop xtracks xdevs st).idevs,
      idev ∈ st.idevs ∨ ∃ xdev : XrtDevice, some xdev ∈ xdevs ∧
        idev.tracking_origin_index =
          findOriginIndex xtracks xdev.tracking_origin := by
  induction xdevs with
  | nil =>
    intro st idev h
    exact Or.inl (by simpa [initShmDevicesLoop] using h)
  | cons od rest ih =>
    intro st idev h
    cases od with
    | none =>
      rcases ih st idev (by simpa [initShmDevicesLoop] using h) with
        h1 | ⟨xd, hxd, he⟩
      · exact Or.inl h1
      · exact Or.inr ⟨xd, List.mem_cons_of_mem _ hxd, he⟩
    | some xdev =>
      rcases ih (writeSharedDevice xtracks st xdev) idev
          (by simpa [initShmDevicesLoop] using h) with h1 | ⟨xd, hxd, he⟩
      · have h2 : idev ∈ st.idevs ++
            [{ name := xdev.name, str := xdev.str,
               tracking_origin_index :=
                 findOriginIndex xtracks xdev.tracking_origin,
               first_input_index :=
                 if st.inputs.length ≠ (st.inputs ++ xdev.inputs).length
                 then st.inputs.length else 0,
               num_inputs :=
                 if st.inputs.length ≠ (st.inputs ++ xdev.inputs).length
                 then (st.inputs ++ xdev.inputs).length - st.inputs.length
                 else 0,
               first_output_index :=
                 if st.outputs.length ≠ (st.outputs ++ xdev.outputs).length
                 then st.outputs.length else 0,
               num_outputs :=
                 if st.outputs.length ≠ (st.outputs ++ xdev.outputs).length
                 then (st.outputs ++ xdev.outputs).length - st.outputs.length
                 else 0 }] := h1
        rcases List.mem_append.mp h2 with h3 | h3
        · exact Or.inl h3
        · rcases List.mem_singleton.mp h3 with rfl
          exact Or.inr ⟨xdev, List.mem_cons_self _ _, rfl⟩
      · exact Or.inr ⟨xd, List.mem_cons_of_mem _ hxd, he⟩

/-- Claim C1: after the `SharedCatalogue` build over a catalogue of at
most `IPC_SERVER_NUM_XDEVS` devices, each with a non-NULL tracking
origin, every published device entry has a `tracking_origin_index`
different from the `(uint32_t)-1` sentinel and below `num_itracks`. -/
theorem C1_tracking_origin_index_valid (xdevs : List (Option XrtDevice))
    (hlen : xdevs.length ≤ IPC_SERVER_NUM_XDEVS)
    (horig : ∀ od ∈ xdevs, devHasOrigin od) :
    ∀ idev ∈ (init_shm_populate xdevs (init_tracking_origins xdevs)).idevs,
      idev.tracking_origin_index ≠ UINT32_MAX ∧
      idev.tracking_origin_index <
        (init_shm_populate xdevs (init_tracking_origins xdevs)).num_itracks := by
  obtain ⟨q, m, hshape, hqm, hmem⟩ := init_tracking_origins_shape xdevs hlen
  intro idev hidev
  have hidev2 : idev ∈ (initShmDevicesLoop (init_tracking_origins xdevs) xdevs
      ⟨[], [], [], ⟨zeroView, zeroView⟩⟩).idevs := by
    simpa [init_shm_populate] using hidev
  rcases initShmDevicesLoop_origin _ xdevs _ idev hidev2 with h0 | ⟨xdev, hxdev, he⟩
  · cases h0
  · have hdev := horig (some xdev) hxdev
    cases h1 : xdev.tracking_origin with
    | none => exact absurd h1 hdev
    | some t =>
      have ht : t ∈ q := hmem xdev hxdev t h1
      have hlt := findOriginIndexAux_lt_of_mem q m t ht 0
      have hidx : idev.tracking_origin_index < q.length := by
        rw [he, h1, findOriginIndex, hshape]
        simpa using hlt
      have hni : (init_shm_populate xdevs (init_tracking_origins xdevs)).num_itracks
          = q.length := by
        show (itracksOf (init_tracking_origins xdevs)).length = q.length
        rw [hshape, itracksOf_shape, List.length_map]
      refine ⟨?_, by rw [hni]; exact hidx⟩
      have hq8 : q.length ≤ IPC_SERVER_NUM_XDEVS := by omega
      intro hcontra
      rw [hcontra] at hidx
      unfold UINT32_MAX at hidx
      unfold IPC_SERVER_NUM_XDEVS at hq8
      omega

/-- Claim C1 instantiated at a concrete three-device catalogue with a
shared tracking origin. -/
theorem C1_tracking_origin_index_valid_witness :
    wXdevs.length ≤ IPC_SERVER_NUM_XDEVS ∧
    ∀ idev ∈ (init_shm_populate wXdevs (init_tracking_origins wXdevs)).idevs,
      idev.tracking_origin_index ≠ UINT32_MAX ∧
      idev.tracking_origin_index <
        (init_shm_populate wXdevs (init_tracking_origins wXdevs)).num_itracks :=
  ⟨by decide, C1_tracking_origin_index_valid wXdevs (by decide) (by decide)⟩

/-- What one pass of the device-writing loop body guarantees: the entry
appended for `xdev` addresses only freshly written flat-array cells. -/
theorem writeSharedDevice_spec (xtracks : List (Option XrtTrackingOrigin))
    (st : ShmFill) (xdev : XrtDevice) :
    ∃ d : IpcSharedDevice,
      (writeSharedDevice xtracks st xdev).idevs = st.idevs ++ [d] ∧
      (writeSharedDevice xtracks st xdev).inputs = st.inputs ++ xdev.inputs ∧
      (writeSharedDevice xtracks st xdev).outputs = st.outputs ++ xdev.outputs ∧
      d.first_input_index + d.num_inputs ≤ (st.inputs ++ xdev.inputs).length ∧
      d.first_output_index + d.num_outputs ≤ (st.outputs ++ xdev.outputs).length ∧
      (d.num_inputs ≠ 0 → st.inputs.length ≤ d.first_input_index) ∧
      (d.num_outputs ≠ 0 → st.outputs.length ≤ d.first_output_index) := by
  refine ⟨_, rfl, rfl, rfl, ?_, ?_, ?_, ?_⟩
  · show (if st.inputs.length ≠ (st.inputs ++ xdev.inputs).length
        then st.inputs.length else 0) +
      (if st.inputs.length ≠ (st.inputs ++ xdev.inputs).length
        then (st.inputs ++ xdev.inputs).length - st.inputs.length else 0) ≤
      (st.inputs ++ xdev.inputs).length
    simp only [List.length_append]
    split_ifs <;> omega
  · show (if st.outputs.length ≠ (st.outputs ++ xdev.outputs).length
        then st.outputs.length else 0) +
      (if st.outputs.length ≠ (st.outputs ++ xdev.outputs).length
        then (st.outputs ++ xdev.outputs).length - st.outputs.length else 0) ≤
      (st.outputs ++ xdev.outputs).length
    simp only [List.length_append]
    split_ifs <;> omega
  · show (if st.inputs.length ≠ (st.inputs ++ xdev.inputs).length
        then (st.inputs ++ xdev.inputs).length - st.inputs.length else 0) ≠ 0 →
      st.inputs.length ≤
        (if st.inputs.length ≠ (st.inputs ++ xdev.inputs).length
          then st.inputs.length else 0)
    simp only [List.length_append]
    split_ifs <;> omega
  · show (if st.outputs.length ≠ (st.outputs ++ xdev.outputs).length
        then (st.outputs ++ xdev.outputs).length - st.outputs.length else 0) ≠ 0 →
      st.outputs.length ≤
        (if st.outputs.length ≠ (st.outputs ++ xdev.outputs).length
          then st.outputs.length else 0)
    simp only [List.length_append]
    split_ifs <;> omega

/-- The device-writing loop keeps every entry's slices inside the flat
arrays written so far, and keeps the entries pairwise disjoint. -/
theorem initShmDevicesLoop_ranges (xtracks : List (Option XrtTrackingOrigin))
    (xdevs : List (Option XrtDevice)) :
    ∀ st : ShmFill,
      (∀ d ∈ st.idevs,
        d.first_input_index + d.num_inputs ≤ st.inputs.length ∧
        d.first_output_index + d.num_outputs ≤ st.outputs.length) →
      st.idevs.Pairwise slicesDisjoint →
      (∀ d ∈ (initShmDevicesLoop xtracks xdevs st).idevs,
        d.first_input_index + d.num_inputs ≤
          (initShmDevicesLoop xtracks xdevs st).inputs.length ∧
        d.first_output_index + d.num_outputs ≤
          (initShmDevicesLoop xtracks xdevs st).outputs.length) ∧
      (initShmDevicesLoop xtracks xdevs st).idevs.Pairwise slicesDisjoint := by
  induction xdevs with
  | nil =>
    intro st hb hp
    exact ⟨by simpa [initShmDevicesLoop] using hb,
      by simpa [initShmDevicesLoop] using hp⟩
  | cons od rest ih =>
    intro st hb hp
    cases od with
    | none =>
      have h := ih st hb hp
      exact ⟨by simpa [initShmDevicesLoop] using h.1,
        by simpa [initShmDevicesLoop] using h.2⟩
    | some xdev =>
      obtain ⟨d, hidevs, hinp, hout, hdin, hdout, hfin, hfout⟩ :=
        writeSharedDevice_spec xtracks st xdev
      have hb2 : ∀ d2 ∈ (writeSharedDevice xtracks st xdev).idevs,
          d2.first_input_index + d2.num_inputs ≤
            (writeSharedDevice xtracks st xdev).inputs.length ∧
          d2.first_output_index + d2.num_outputs ≤
            (writeSharedDevice xtracks st xdev).outputs.length := by
        intro d2 hd2
        rw [hidevs] at hd2
        rw [hinp, hout]
        rcases List.mem_append.mp hd2 with h2 | h2
        · obtain ⟨hi, ho⟩ := hb d2 h2
          constructor
          · calc d2.first_input_index + d2.num_inputs ≤ st.inputs.length := hi
              _ ≤ (st.inputs ++ xdev.inputs).length := by
                simp [List.length_append]
          · calc d2.first_output_index + d2.num_outputs ≤ st.outputs.length := ho
              _ ≤ (st.outputs ++ xdev.outputs).length := by
                simp [List.length_append]
        · rcases List.mem_singleton.mp h2 with rfl
          exact ⟨hdin, hdout⟩
      have hp2 : (writeSharedDevice xtracks st xdev).idevs.Pairwise
          slicesDisjoint := by
        rw [hidevs]
        rw [List.pairwise_append]
        refine ⟨hp, List.pairwise_singleton _ _, ?_⟩
        intro dold hdold d2 hd2
        rcases List.mem_singleton.mp hd2 with rfl
        obtain ⟨hi, ho⟩ := hb dold hdold
        constructor
        · rintro x ⟨⟨hx1, hx2⟩, ⟨hx3, hx4⟩⟩
          by_cases hz : d2.num_inputs = 0
          · omega
          · have := hfin hz
            omega
        · rintro x ⟨⟨hx1, hx2⟩, ⟨hx3, hx4⟩⟩
          by_cases hz : d2.num_outputs = 0
          · omega
          · have := hfout hz
            omega
      have h := ih (writeSharedDevice xtracks st xdev) hb2 hp2
      exact ⟨by simpa [initShmDevicesLoop] using h.1,
        by simpa [initShmDevicesLoop] using h.2⟩

/-- Claim C2: after the `SharedCatalogue` build, every published device
entry's input slice ends at or before the number of inputs written to
the flat input array, likewise for outputs, and the slices of distinct
entries are pairwise non-overlapping. -/
theorem C2_io_slices_bounded_and_disjoint (xdevs : List (Option XrtDevice))
    (xtracks : List (Option XrtTrackingOrigin)) :
    (∀ d ∈ (init_shm_populate xdevs xtracks).idevs,
      d.first_input_index + d.num_inputs ≤
        (init_shm_populate xdevs xtracks).inputs.length ∧
      d.first_output_index + d.num_outputs ≤
        (init_shm_populate xdevs xtracks).outputs.length) ∧
    (init_shm_populate xdevs xtracks).idevs.Pairwise slicesDisjoint := by
  have h := initShmDevicesLoop_ranges xtracks xdevs
    ⟨[], [], [], ⟨zeroView, zeroView⟩⟩ (by intro d hd; cases hd) List.Pairwise.nil
  exact ⟨by simpa [init_shm_populate] using h.1,
    by simpa [init_shm_populate] using h.2⟩

/-- Claim C3, evaluated at the failing input: with `shm_open` giving
fd 3 and `ftruncate` succeeding, a failing `mmap` returns `MAP_FAILED`
— not the NULL the code tests `s->ism` against — so `init_shm` does
not return a negative error: it unlinks the shm name, stores the fd
and returns 0 with the invalid pointer in `s->ism`, and `init_all`
runs no teardown and also returns 0.  (The `shm_open` and `ftruncate`
arms of the claim do hold of the code; the `mmap` arm is the bug.) -/
theorem C3_mmap_failure_undetected :
    (init_shm wShmEnvMmapFail wXdevs (init_tracking_origins wXdevs)).ret = 0 ∧
    (init_shm wShmEnvMmapFail wXdevs (init_tracking_origins wXdevs)).ism =
      IsmPointer.mapFailedPtr ∧
    (init_shm wShmEnvMmapFail wXdevs
      (init_tracking_origins wXdevs)).shm_unlinked = true ∧
    (init_shm wShmEnvMmapFail wXdevs (init_tracking_origins wXdevs)).ism_fd =
      some 3 ∧
    (init_all wInitEnvMmapFail).ret = 0 ∧
    (init_all wInitEnvMmapFail).teardown_ran = false := by
  refine ⟨?_, ?_, ?_, ?_, ?_, ?_⟩ <;> decide

/-- Claim C4: after a successful listener bootstrap, teardown closes
the listening fd, unlinks the well-known path exactly when this
process bound it (`launched_by_socket = false`), and never unlinks an
inherited socket's path. -/
theorem C4_teardown_unlinks_iff_bound (env : ListenEnv) (s : ListenState)
    (hs1 : s.launched_by_socket = false)
    (hret : 0 < (init_listen_socket env s).ret) :
    (teardown_listen_socket (init_listen_socket env s).st).closed =
      [(init_listen_socket env s).st.listen_socket] ∧
    ((init_listen_socket env s).st.launched_by_socket = false →
      (teardown_listen_socket (init_listen_socket env s).st).unlinked =
        [IPC_MSG_SOCK_FILE]) ∧
    ((init_listen_socket env s).st.launched_by_socket = true →
      (teardown_listen_socket (init_listen_socket env s).st).unlinked = []) := by
  by_cases hgt : env.sd_num_fds > 1
  · exfalso
    have hr : (init_listen_socket env s).ret = -1 := by
      simp [init_listen_socket, get_systemd_socket, hgt]
    omega
  · by_cases hones : env.sd_num_fds = 1
    · have hstep : init_listen_socket env s =
          ⟨SD_LISTEN_FDS_START, SD_LISTEN_FDS_START,
            ⟨SD_LISTEN_FDS_START, true, s.socket_filename⟩⟩ := by
        simp [init_listen_socket, get_systemd_socket, hgt, hones,
          SD_LISTEN_FDS_START]
      rw [hstep]
      refine ⟨?_, ?_, ?_⟩
      · simp [teardown_listen_socket, SD_LISTEN_FDS_START]
      · intro h; simp at h
      · intro _; simp [teardown_listen_socket, SD_LISTEN_FDS_START]
    · by_cases hsock : env.socket_ret < 0
      · exfalso
        have hr : (init_listen_socket env s).ret = env.socket_ret := by
          simp [init_listen_socket, get_systemd_socket, create_listen_socket,
            hgt, hones, hsock]
        omega
      · by_cases hbind : env.bind_ret < 0
        · exfalso
          have hr : (init_listen_socket env s).ret = env.bind_ret := by
            simp [init_listen_socket, get_systemd_socket, create_listen_socket,
              hgt, hones, hsock, hbind]
          omega
        · by_cases hlst : env.listen_ret < 0
          · exfalso
            have hr : (init_listen_socket env s).ret = env.listen_ret := by
              simp [init_listen_socket, get_systemd_socket,
                create_listen_socket, hgt, hones, hsock, hbind, hlst]
            omega
          · have hstep : init_listen_socket env s =
                ⟨env.socket_ret, env.socket_ret,
                  ⟨env.socket_ret, s.launched_by_socket,
                    some IPC_MSG_SOCK_FILE⟩⟩ := by
              simp [init_listen_socket, get_systemd_socket,
                create_listen_socket, hgt, hones, hsock, hbind, hlst]
            rw [hstep] at hret ⊢
            have hpos : (0 : Int) < env.socket_ret := by simpa using hret
            refine ⟨?_, ?_, ?_⟩
            · simp [teardown_listen_socket, hpos, hs1]
            · intro _
              simp [teardown_listen_socket, hpos, hs1]
            · intro h
              rw [hs1] at h
              cases h

/-- Claim C4 instantiated at the calloc'd server state with a
successfully created (not inherited) socket of fd 7. -/
theorem C4_teardown_unlinks_iff_bound_witness :
    (wListenStateZero.launched_by_socket = false ∧
      0 < (init_listen_socket wListenEnvCreated wListenStateZero).ret) ∧
    ((teardown_listen_socket
        (init_listen_socket wListenEnvCreated wListenStateZero).st).closed =
      [(init_listen_socket wListenEnvCreated wListenStateZero).st.listen_socket] ∧
    ((init_listen_socket wListenEnvCreated wListenStateZero).st.launched_by_socket
        = false →
      (teardown_listen_socket
        (init_listen_socket wListenEnvCreated wListenStateZero).st).unlinked =
        [IPC_MSG_SOCK_FILE]) ∧
    ((init_listen_socket wListenEnvCreated wListenStateZero).st.launched_by_socket
        = true →
      (teardown_listen_socket
        (init_listen_socket wListenEnvCreated wListenStateZero).st).unlinked =
        [])) :=
  ⟨⟨by decide, by decide⟩,
    C4_teardown_unlinks_iff_bound wListenEnvCreated wListenStateZero
      (by decide) (by decide)⟩

/-- Claim C5: a connection accepted while the worker thread is started
and not stopping is rejected: the accepted fd is closed, the rejection
is logged, and the session's socket fd, thread flags and running flag
are unchanged. -/
theorem C5_second_connection_rejected (acceptRet : Int)
    (s : ServerThreadState) (hacc : 0 ≤ acceptRet)
    (hst : s.thread_started = true) (hsp : s.thread_stopping = false) :
    (handle_listen acceptRet s).st = s ∧
    (handle_listen acceptRet s).actions =
      [.logClientAlreadyConnected, .closeFd acceptRet] := by
  obtain ⟨r, st0, sp0, fd0⟩ := s
  simp only at hst hsp
  subst hst
  subst hsp
  have hna : ¬ acceptRet < 0 := by omega
  simp [handle_listen, hna]

/-- Claim C5 instantiated at a running session and accepted fd 5. -/
theorem C5_second_connection_rejected_witness :
    ((0 : Int) ≤ 5 ∧ wThreadBusy.thread_started = true) ∧
    ((handle_listen 5 wThreadBusy).st = wThreadBusy ∧
      (handle_listen 5 wThreadBusy).actions =
        [.logClientAlreadyConnected, .closeFd 5]) :=
  ⟨⟨by decide, by decide⟩,
    C5_second_connection_rejected 5 wThreadBusy (by decide) (by decide)
      (by decide)⟩

/-- Claim C10: when `accept` returns a negative value, `handle_listen`
clears `running` and logs, but does not return early: with no worker
started and none stopping it stores the negative value as the
session's socket fd, marks the thread started and starts the worker;
with a running worker it closes the negative fd. -/
theorem C10_accept_failure_still_spawns (acceptRet : Int)
    (s : ServerThreadState) (hacc : acceptRet < 0) :
    (handle_listen acceptRet s).st.running = false ∧
    ListenAction.logAcceptError ∈ (handle_listen acceptRet s).actions ∧
    (s.thread_started = false → s.thread_stopping = false →
      (handle_listen acceptRet s).st.ipc_socket_fd = acceptRet ∧
      (handle_listen acceptRet s).st.thread_started = true ∧
      ListenAction.threadStart ∈ (handle_listen acceptRet s).actions) ∧
    (s.thread_started = true → s.thread_stopping = false →
      ListenAction.closeFd acceptRet ∈ (handle_listen acceptRet s).actions) := by
  obtain ⟨r, st0, sp0, fd0⟩ := s
  cases st0 <;> cases sp0 <;> simp [handle_listen, hacc]

/-- Claim C10 instantiated at a failing accept (-1) with a started,
non-stopping worker. -/
theorem C10_accept_failure_still_spawns_witness :
    ((-1 : Int) < 0) ∧
    ((handle_listen (-1) wThreadBusy).st.running = false ∧
      ListenAction.logAcceptError ∈ (handle_listen (-1) wThreadBusy).actions ∧
      (wThreadBusy.thread_started = false → wThreadBusy.thread_stopping = false →
        (handle_listen (-1) wThreadBusy).st.ipc_socket_fd = -1 ∧
        (handle_listen (-1) wThreadBusy).st.thread_started = true ∧
        ListenAction.threadStart ∈ (handle_listen (-1) wThreadBusy).actions) ∧
      (wThreadBusy.thread_started = true → wThreadBusy.thread_stopping = false →
        ListenAction.closeFd (-1) ∈ (handle_listen (-1) wThreadBusy).actions)) :=
  ⟨by decide, C10_accept_failure_still_spawns (-1) wThreadBusy (by decide)⟩

/-! Lemmas about the per-layer dispatch. -/

theorem updateProjectionLayer_fail (ac : IpcClientState)
    (layer : IpcLayerRenderState) (i : Nat)
    (h : ac.xscs.getD (layer.swapchain_ids.getD 0 0) none = none ∨
      ac.xscs.getD (layer.swapchain_ids.getD 1 0) none = none) :
    updateProjectionLayer ac layer i =
      (false, [.logInvalidProjectionSwapchain]) := by
  simp only [updateProjectionLayer]
  rcases h1 : ac.xscs.getD (layer.swapchain_ids.getD 0 0) none with _ | cl
  · rcases h2 : ac.xscs.getD (layer.swapchain_ids.getD 1 0) none with _ | cr <;>
      rfl
  · rcases h2 : ac.xscs.getD (layer.swapchain_ids.getD 1 0) none with _ | cr
    · rfl
    · rcases h with h | h
      · rw [h1] at h; cases h
      · rw [h2] at h; cases h

theorem updateProjectionLayer_ok (ac : IpcClientState)
    (layer : IpcLayerRenderState) (i : Nat)
    (h1 : ac.xscs.getD (layer.swapchain_ids.getD 0 0) none ≠ none)
    (h2 : ac.xscs.getD (layer.swapchain_ids.getD 1 0) none ≠ none) :
    (updateProjectionLayer ac layer i).1 = true ∧
    ∃ act, (updateProjectionLayer ac layer i).2 = [act] ∧
      isErrLog act = false ∧ isLoopAction act = true := by
  rcases h3 : ac.xscs.getD (layer.swapchain_ids.getD 0 0) none with _ | cl
  · exact absurd h3 h1
  · rcases h4 : ac.xscs.getD (layer.swapchain_ids.getD 1 0) none with _ | cr
    · exact absurd h4 h2
    · have heq : updateProjectionLayer ac layer i =
          (true, [.setProjectionLayer cl layer.data.stereo.l.image_index
            cr layer.data.stereo.r.image_index layer.data.flip_y i
            layer.data.stereo.l.array_index
            layer.data.stereo.r.array_index]) := by
        simp only [updateProjectionLayer]
        rw [h3, h4]
      rw [heq]
      exact ⟨rfl, _, rfl, rfl, rfl⟩

theorem updateQuadLayer_fail (ac : IpcClientState)
    (layer : IpcLayerRenderState) (i : Nat)
    (h : ac.xscs.getD (layer.swapchain_ids.getD 0 0) none = none) :
    updateQuadLayer ac layer i = (false, [.logInvalidQuadSwapchain]) := by
  simp only [updateQuadLayer]
  rcases h1 : ac.xscs.getD (layer.swapchain_ids.getD 0 0) none with _ | sc
  · rfl
  · rw [h1] at h; cases h

theorem updateQuadLayer_ok (ac : IpcClientState)
    (layer : IpcLayerRenderState) (i : Nat)
    (h : ac.xscs.getD (layer.swapchain_ids.getD 0 0) none ≠ none) :
    (updateQuadLayer ac layer i).1 = true ∧
    ∃ act, (updateQuadLayer ac layer i).2 = [act] ∧
      isErrLog act = false ∧ isLoopAction act = true := by
  rcases h1 : ac.xscs.getD (layer.swapchain_ids.getD 0 0) none with _ | sc
  · exact absurd h1 h
  · have heq : updateQuadLayer ac layer i =
        (true, [.setQuadLayer sc layer.data.quad.image_index
          layer.data.quad.pose layer.data.quad.size layer.data.flip_y i
          layer.data.quad.array_index]) := by
      simp only [updateQuadLayer]
      rw [h1]
    rw [heq]
    exact ⟨rfl, _, rfl, rfl, rfl⟩

/-- The dispatch loop emits only per-layer actions, logs exactly one
error when and only when it fails, and fails whenever some submitted
layer references a NULL swapchain slot. -/
theorem updateLayersLoop_spec (ac : IpcClientState)
    (layers : List IpcLayerRenderState) :
    ∀ i,
      (∀ a ∈ (updateLayersLoop ac layers i).2, isLoopAction a = true) ∧
      ((updateLayersLoop ac layers i).1 = true →
        (updateLayersLoop ac layers i).2.filter isErrLog = []) ∧
      ((updateLayersLoop ac layers i).1 = false →
        ((updateLayersLoop ac layers i).2.filter isErrLog).length = 1) ∧
      ((∃ layer ∈ layers, layerRefsNullSwapchain ac layer = true) →
        (updateLayersLoop ac layers i).1 = false) := by
  induction layers with
  | nil =>
    intro i
    refine ⟨?_, ?_, ?_, ?_⟩
    · intro a ha; simp [updateLayersLoop] at ha
    · intro _; simp [updateLayersLoop]
    · intro hcontra; simp [updateLayersLoop] at hcontra
    · rintro ⟨layer, hmem, _⟩; simp at hmem
  | cons layer rest ih =>
    intro i
    cases htype : layer.data.type with
    | stereoProjection =>
      by_cases hnull : ac.xscs.getD (layer.swapchain_ids.getD 0 0) none = none ∨
          ac.xscs.getD (layer.swapchain_ids.getD 1 0) none = none
      · have hfail := updateProjectionLayer_fail ac layer i hnull
        have heq : updateLayersLoop ac (layer :: rest) i =
            (false, [.logInvalidProjectionSwapchain]) := by
          simp [updateLayersLoop, htype, hfail]
        rw [heq]
        refine ⟨?_, ?_, ?_, ?_⟩
        · intro a ha
          rcases List.mem_singleton.mp ha with rfl
          rfl
        · intro hcontra; cases hcontra
        · intro _; rfl
        · intro _; rfl
      · push_neg at hnull
        obtain ⟨hok, act, hact, herr, hloopa⟩ :=
          updateProjectionLayer_ok ac layer i hnull.1 hnull.2
        have heq : updateLayersLoop ac (layer :: rest) i =
            ((updateLayersLoop ac rest (i + 1)).1,
              act :: (updateLayersLoop ac rest (i + 1)).2) := by
          simp [updateLayersLoop, htype, hok, hact]
        obtain ⟨ih1, ih2, ih3, ih4⟩ := ih (i + 1)
        rw [heq]
        refine ⟨?_, ?_, ?_, ?_⟩
        · intro a ha
          rcases List.mem_cons.mp ha with rfl | ha
          · exact hloopa
          · exact ih1 a ha
        · intro hres
          simp only [List.filter_cons, herr]
          exact ih2 hres
        · intro hres
          simp only [List.filter_cons, herr]
          exact ih3 hres
        · rintro ⟨l2, hl2, hbad⟩
          rcases List.mem_cons.mp hl2 with rfl | hl2
          · exfalso
            unfold layerRefsNullSwapchain at hbad
            rw [htype] at hbad
            simp only [Bool.or_eq_true, Option.isNone_iff_eq_none] at hbad
            rcases hbad with hb | hb
            · exact hnull.1 hb
            · exact hnull.2 hb
          · exact ih4 ⟨l2, hl2, hbad⟩
    | quad =>
      by_cases hnull : ac.xscs.getD (layer.swapchain_ids.getD 0 0) none = none
      · have hfail := updateQuadLayer_fail ac layer i hnull
        have heq : updateLayersLoop ac (layer :: rest) i =
            (false, [.logInvalidQuadSwapchain]) := by
          simp [updateLayersLoop, htype, hfail]
        rw [heq]
        refine ⟨?_, ?_, ?_, ?_⟩
        · intro a ha
          rcases List.mem_singleton.mp ha with rfl
          rfl
        · intro hcontra; cases hcontra
        · intro _; rfl
        · intro _; rfl
      · obtain ⟨hok, act, hact, herr, hloopa⟩ :=
          updateQuadLayer_ok ac layer i hnull
        have heq : updateLayersLoop ac (layer :: rest) i =
            ((updateLayersLoop ac rest (i + 1)).1,
              act :: (updateLayersLoop ac rest (i + 1)).2) := by
          simp [updateLayersLoop, htype, hok, hact]
        obtain ⟨ih1, ih2, ih3, ih4⟩ := ih (i + 1)
        rw [heq]
        refine ⟨?_, ?_, ?_, ?_⟩
        · intro a ha
          rcases List.mem_cons.mp ha with rfl | ha
          · exact hloopa
          · exact ih1 a ha
        · intro hres
          simp only [List.filter_cons, herr]
          exact ih2 hres
        · intro hres
          simp only [List.filter_cons, herr]
          exact ih3 hres
        · rintro ⟨l2, hl2, hbad⟩
          rcases List.mem_cons.mp hl2 with rfl | hl2
          · exfalso
            unfold layerRefsNullSwapchain at hbad
            rw [htype] at hbad
            simp only [Option.isNone_iff_eq_none] at hbad
            exact hnull hbad
          · exact ih4 ⟨l2, hl2, hbad⟩
    | cube =>
      have heq : updateLayersLoop ac (layer :: rest) i =
          updateLayersLoop ac rest (i + 1) := by
        simp [updateLayersLoop, htype]
      obtain ⟨ih1, ih2, ih3, ih4⟩ := ih (i + 1)
      rw [heq]
      refine ⟨ih1, ih2, ih3, ?_⟩
      rintro ⟨l2, hl2, hbad⟩
      rcases List.mem_cons.mp hl2 with rfl | hl2
      · exfalso
        unfold layerRefsNullSwapchain at hbad
        rw [htype] at hbad
        cases hbad
      · exact ih4 ⟨l2, hl2, hbad⟩
    | cylinder =>
      have heq : updateLayersLoop ac (layer :: rest) i =
          updateLayersLoop ac rest (i + 1) := by
        simp [updateLayersLoop, htype]
      obtain ⟨ih1, ih2, ih3, ih4⟩ := ih (i + 1)
      rw [heq]
      refine ⟨ih1, ih2, ih3, ?_⟩
      rintro ⟨l2, hl2, hbad⟩
      rcases List.mem_cons.mp hl2 with rfl | hl2
      · exfalso
        unfold layerRefsNullSwapchain at hbad
        rw [htype] at hbad
        cases hbad
      · exact ih4 ⟨l2, hl2, hbad⟩
    | equirect1 =>
      have heq : updateLayersLoop ac (layer :: rest) i =
          updateLayersLoop ac rest (i + 1) := by
        simp [updateLayersLoop, htype]
      obtain ⟨ih1, ih2, ih3, ih4⟩ := ih (i + 1)
      rw [heq]
      refine ⟨ih1, ih2, ih3, ?_⟩
      rintro ⟨l2, hl2, hbad⟩
      rcases List.mem_cons.mp hl2 with rfl | hl2
      · exfalso
        unfold layerRefsNullSwapchain at hbad
        rw [htype] at hbad
        cases hbad
      · exact ih4 ⟨l2, hl2, hbad⟩
    | equirect2 =>
      have heq : updateLayersLoop ac (layer :: rest) i =
          updateLayersLoop ac rest (i + 1) := by
        simp [updateLayersLoop, htype]
      obtain ⟨ih1, ih2, ih3, ih4⟩ := ih (i + 1)
      rw [heq]
      refine ⟨ih1, ih2, ih3, ?_⟩
      rintro ⟨l2, hl2, hbad⟩
      rcases List.mem_cons.mp hl2 with rfl | hl2
      · exfalso
        unfold layerRefsNullSwapchain at hbad
        rw [htype] at hbad
        cases hbad
      · exact ih4 ⟨l2, hl2, hbad⟩

/-- `update_layers` prepends only layer-array management (never a draw
or an error log) to the dispatch loop's actions, and succeeds exactly
when the loop does. -/
theorem update_layers_shape (num_layers : Nat) (ac : IpcClientState) :
    ∃ pre,
      (update_layers num_layers ac).actions = pre ++
        (updateLayersLoop ac
          (ac.render_state.layers.take ac.render_state.num_layers) 0).2 ∧
      (∀ a ∈ pre, isErrLog a = false ∧ a ≠ CompAction.draw) ∧
      (update_layers num_layers ac).ok =
        (updateLayersLoop ac
          (ac.render_state.layers.take ac.render_state.num_layers) 0).1 := by
  by_cases h : num_layers ≠ ac.render_state.num_layers
  · refine ⟨[.destroyLayers, .allocateLayers ac.render_state.num_layers],
      ?_, ?_, rfl⟩
    · simp [update_layers, h]
    · intro a ha
      rcases List.mem_cons.mp ha with rfl | ha
      · exact ⟨rfl, by simp⟩
      · rcases List.mem_singleton.mp ha with rfl
        exact ⟨rfl, by simp⟩
  · refine ⟨[], ?_, ?_, rfl⟩
    · simp [update_layers, h]
    · intro a ha; simp at ha

/-- Claim C6: a frame whose submitted layers reference a NULL
swapchain slot is skipped: reconciliation fails, the iteration takes
the `continue` (so no draw and no garbage collection), `rendering`
stays set, and exactly one error is logged. -/
theorem C6_invalid_swapchain_skips_frame (num_layers : Nat)
    (ts : IpcClientState) (hact : ts.active = true)
    (hsw : ts.num_swapchains ≠ 0)
    (hrend : ts.render_state.rendering = true)
    (hbad : ∃ layer ∈ ts.render_state.layers.take ts.render_state.num_layers,
      layerRefsNullSwapchain ts layer = true) :
    (main_loop_body num_layers ts).continued = true ∧
    (main_loop_body num_layers ts).rendering = true ∧
    CompAction.draw ∉ (main_loop_body num_layers ts).actions ∧
    ((main_loop_body num_layers ts).actions.filter isErrLog).length = 1 := by
  obtain ⟨pre, hacts, hpre, hok⟩ := update_layers_shape num_layers ts
  have hloop := updateLayersLoop_spec ts
    (ts.render_state.layers.take ts.render_state.num_layers) 0
  have hfail : (updateLayersLoop ts
      (ts.render_state.layers.take ts.render_state.num_layers) 0).1 = false :=
    hloop.2.2.2 hbad
  have hbody : main_loop_body num_layers ts =
      ⟨ts.render_state.rendering, (update_layers num_layers ts).num_layers,
        (update_layers num_layers ts).actions, true⟩ := by
    unfold main_loop_body
    rw [if_neg (by simp [hact, hsw]), if_pos hrend, if_pos (by
      rw [hok, hfail]; rfl)]
  rw [hbody]
  refine ⟨rfl, hrend, ?_, ?_⟩
  · intro hmem
    rw [hacts] at hmem
    rcases List.mem_append.mp hmem with hmem | hmem
    · exact absurd rfl (hpre _ hmem).2
    · have := hloop.1 _ hmem
      simp [isLoopAction] at this
  · show ((update_layers num_layers ts).actions.filter isErrLog).length = 1
    rw [hacts, List.filter_append]
    have hprefilter : pre.filter isErrLog = [] := by
      rw [List.filter_eq_nil_iff]
      intro a ha
      rw [(hpre a ha).1]
      simp
    rw [hprefilter, List.nil_append]
    exact hloop.2.2.1 hfail

/-- Claim C6 instantiated at a client rendering one stereo layer whose
right-eye swapchain slot is NULL. -/
theorem C6_invalid_swapchain_skips_frame_witness :
    (wClientBadSwapchain.active = true ∧
      wClientBadSwapchain.render_state.rendering = true) ∧
    ((main_loop_body 0 wClientBadSwapchain).continued = true ∧
      (main_loop_body 0 wClientBadSwapchain).rendering = true ∧
      CompAction.draw ∉ (main_loop_body 0 wClientBadSwapchain).actions ∧
      ((main_loop_body 0 wClientBadSwapchain).actions.filter isErrLog).length
        = 1) :=
  ⟨⟨by decide, by decide⟩,
    C6_invalid_swapchain_skips_frame 0 wClientBadSwapchain (by decide)
      (by decide) (by decide) (by decide)⟩

/-- Claim C7: when the submitted layer count differs from the current
one, reconciliation destroys all layer objects and then allocates a
fresh contiguous array sized to the new count before any per-layer
dispatch; with equal counts neither happens.  The allocation itself
yields an array of exactly the new count of fresh objects, and destroy
zeroes the count. -/
theorem C7_layer_count_change_reallocates (num_layers : Nat)
    (ts : IpcClientState) :
    (num_layers ≠ ts.render_state.num_layers →
      ∃ rest, (update_layers num_layers ts).actions =
        CompAction.destroyLayers ::
          CompAction.allocateLayers ts.render_state.num_layers :: rest ∧
        CompAction.destroyLayers ∉ rest ∧
        ∀ n, CompAction.allocateLayers n ∉ rest) ∧
    (num_layers = ts.render_state.num_layers →
      CompAction.destroyLayers ∉ (update_layers num_layers ts).actions ∧
      ∀ n, CompAction.allocateLayers n ∉ (update_layers num_layers ts).actions) ∧
    (∀ (r : CompLayerRenderer) (n : Nat),
      (comp_layer_renderer_allocate_layers r n).layer_count = n ∧
      (comp_layer_renderer_allocate_layers r n).layers.length = n ∧
      (comp_layer_renderer_destroy_layers r).layer_count = 0 ∧
      (comp_layer_renderer_destroy_layers r).layers = []) := by
  have hloop := updateLayersLoop_spec ts
    (ts.render_state.layers.take ts.render_state.num_layers) 0
  refine ⟨?_, ?_, ?_⟩
  · intro h
    refine ⟨(updateLayersLoop ts
        (ts.render_state.layers.take ts.render_state.num_layers) 0).2,
      by simp [update_layers, h], ?_, ?_⟩
    · intro hmem
      have := hloop.1 _ hmem
      simp [isLoopAction] at this
    · intro n hmem
      have := hloop.1 _ hmem
      simp [isLoopAction] at this
  · intro h
    have hacts : (update_layers num_layers ts).actions =
        (updateLayersLoop ts
          (ts.render_state.layers.take ts.render_state.num_layers) 0).2 := by
      simp [update_layers, h]
    rw [hacts]
    constructor
    · intro hmem
      have := hloop.1 _ hmem
      simp [isLoopAction] at this
    · intro n hmem
      have := hloop.1 _ hmem
      simp [isLoopAction] at this
  · intro r n
    exact ⟨rfl, by simp [comp_layer_renderer_allocate_layers], rfl, rfl⟩

/-- Claim C8: `comp_layer_renderer_draw` clears to the idle background
`(0.1, 0.1, 0.1, 1.0)` exactly when no layers are present and to the
distinct active background `(0, 0, 0, 1)` otherwise, and always draws
a frame. -/
theorem C8_idle_background_color (self : CompLayerRenderer) :
    background_color_idle = ⟨1/10, 1/10, 1/10, 1⟩ ∧
    background_color_active = ⟨0, 0, 0, 1⟩ ∧
    (self.layer_count = 0 →
      comp_layer_renderer_draw self = render_stereo background_color_idle) ∧
    (self.layer_count ≠ 0 →
      comp_layer_renderer_draw self = render_stereo background_color_active) ∧
    render_stereo background_color_idle ≠
      render_stereo background_color_active ∧
    comp_layer_renderer_draw self ≠ [] := by
  refine ⟨rfl, rfl, ?_, ?_, ?_, ?_⟩
  · intro h; simp [comp_layer_renderer_draw, h]
  · intro h; simp [comp_layer_renderer_draw, h]
  · intro h
    simp only [render_stereo, List.cons.injEq, DrawAction.renderPassBegin.injEq]
      at h
    have hc := congrArg VkClearColorValue.c0 h.1
    norm_num [background_color_idle, background_color_active] at hc
  · unfold comp_layer_renderer_draw
    split_ifs <;> simp [render_stereo]

end MonadoIpc
